import Mathlib

/-!
Shallow embedding of the startuppong client library (src/src/lib.rs and
src/src/error.rs).  Network and environment effects are modelled by explicit
oracles: an HTTP GET transport per request index, a JSON decoder oracle, an
environment-lookup function, and a POST responder.  A `World` value carries the
oracles together with a count of GET requests issued and a log of the
(url, body) of every POST issued, so that claims about the number of network
calls are statable.  All definitions are translated from the source; the only
spec-side definitions are `first_match_id` and `resolve_all`, which render the
documented resolution policy declaratively for comparison with the code's
loops.
-/

namespace Startuppong

/-- The credential pair (struct `Account` in lib.rs). -/
structure Account where
  api_account_id : String
  api_access_key : String

/-- `Account::new` from lib.rs. -/
def Account.new (id key : String) : Account :=
  { api_account_id := id, api_access_key := key }

/-- `Account::id` from lib.rs: read-only access to the account id. -/
def Account.id (a : Account) : String :=
  a.api_account_id

/-- `Account::key` from lib.rs: read-only access to the access key. -/
def Account.key (a : Account) : String :=
  a.api_access_key

/-- `std::env::VarError`: the environment variable is absent, or its content is
not valid unicode text (the payload of `NotUnicode` models the raw bytes). -/
inductive VarError where
  | NotPresent : VarError
  | NotUnicode : List Nat → VarError
deriving DecidableEq

/-- `Account::from_env` from lib.rs, with the process environment modelled as a
lookup function.  The source reads STARTUPPONG_ACCOUNT_ID and then
STARTUPPONG_ACCESS_KEY via `try!`, so the first failing lookup is returned
directly as a `std::env::VarError`: the result type in the source is
`Result<Account, std::env::VarError>`, not the library error type. -/
def Account.from_env (env : String → Except VarError String) :
    Except VarError Account :=
  match env "STARTUPPONG_ACCOUNT_ID" with
  | Except.error e => Except.error e
  | Except.ok id =>
    match env "STARTUPPONG_ACCESS_KEY" with
    | Except.error e => Except.error e
    | Except.ok key => Except.ok (Account.new id key)

/-- Struct `Player` from lib.rs. -/
structure Player where
  id : Nat
  rating : Float
  rank : Nat
  name : String

/-- Struct `GetPlayersResponse` from lib.rs; the field is the list the
consuming `players()` accessor hands out. -/
structure GetPlayersResponse where
  players : List Player

/-- Payload of `hyper::error::Error`, opaque to this library. -/
structure HyperError where
  message : String
deriving DecidableEq

/-- Payload of `std::io::Error`, opaque to this library. -/
structure IoError where
  message : String
deriving DecidableEq

/-- Payload of `rustc_serialize::json::DecoderError`, opaque to this
library. -/
structure DecoderError where
  message : String
deriving DecidableEq

/-- Enum `ApiError` from error.rs: the library's unified error type.  The
three `From` impls of error.rs correspond to the `Http`, `Io` and
`JsonDecoding` constructors. -/
inductive ApiError where
  | PlayerNotFound : String → ApiError
  | Http : HyperError → ApiError
  | Io : IoError → ApiError
  | JsonDecoding : DecoderError → ApiError
deriving DecidableEq

/-- An HTTP response as seen by this library: a status code and a body. -/
structure HttpResponse where
  status : Nat
  body : String
deriving DecidableEq

/-- Oracle for one HTTP GET request: the outcome of `send()` and, given a
response, the outcome of `read_to_string` on its body stream. -/
structure GetTransport where
  send : Except HyperError HttpResponse
  read_to_string : HttpResponse → Except IoError String

/-- The effect state threaded through the API calls: `http_get` yields the
transport for the n-th GET request to a URL, `fetchCount` counts GET requests
issued so far, `decode_players` is the `json::decode::<GetPlayersResponse>`
oracle, `postCalls` logs the (url, body) of every POST issued, and `http_post`
is the POST responder. -/
structure World where
  fetchCount : Nat
  http_get : String → Nat → GetTransport
  decode_players : String → Except DecoderError GetPlayersResponse
  postCalls : List (String × String)
  http_post : String → String → Except HyperError HttpResponse

/-- The helper `get` from lib.rs: send the request, read the whole body,
decode it as JSON; each of the three failure modes is wrapped into `ApiError`
by the corresponding `From` impl (`try!`). -/
def get {T : Type} (decode : String → Except DecoderError T) (t : GetTransport) :
    Except ApiError T :=
  match t.send with
  | Except.error e => Except.error (ApiError.Http e)
  | Except.ok res =>
    match t.read_to_string res with
    | Except.error e => Except.error (ApiError.Io e)
    | Except.ok body =>
      match decode body with
      | Except.error e => Except.error (ApiError.JsonDecoding e)
      | Except.ok v => Except.ok v

/-- The URL built by `get_players` in lib.rs. -/
def get_players_url (a : Account) : String :=
  "http://www.startuppong.com/api/v1/get_players?api_account_id=" ++ a.id ++
    "&api_access_key=" ++ a.key

/-- `get_players` from lib.rs: one GET request through the helper `get`,
decoding into `GetPlayersResponse`; the world records one more GET issued. -/
def get_players (a : Account) (w : World) :
    Except ApiError GetPlayersResponse × World :=
  (get w.decode_players (w.http_get (get_players_url a) w.fetchCount),
   { w with fetchCount := w.fetchCount + 1 })

/-- Rust `str::contains`: case-sensitive substring containment. -/
def str_contains (hay needle : String) : Bool :=
  decide (needle.toList <:+: hay.toList)

/-- The inner `for player in &players { .. break }` loop of `get_players_ids`:
the id of the first player, in list order, whose name contains the
fragment. -/
def find_player_id : List Player → String → Option Nat
  | [], _ => none
  | p :: ps, name =>
    if str_contains p.name name then some p.id else find_player_id ps name

/-- The outer `for name in &names` loop of `get_players_ids`, with the
accumulated `ids` vector made explicit.  A fragment for which the inner loop
pushes nothing (`ids.len() == len_before`) aborts with `PlayerNotFound`. -/
def get_players_ids_loop (players : List Player) :
    List String → List Nat → Except ApiError (List Nat)
  | [], ids => Except.ok ids
  | name :: rest, ids =>
    match find_player_id players name with
    | some pid => get_players_ids_loop players rest (ids ++ [pid])
    | none => Except.error (ApiError.PlayerNotFound name)

/-- `get_players_ids` from lib.rs: fetch the player list once via
`get_players`, then run the matching loop over the fragments. -/
def get_players_ids (a : Account) (names : List String) (w : World) :
    Except ApiError (List Nat) × World :=
  match get_players a w with
  | (Except.error e, w1) => (Except.error e, w1)
  | (Except.ok resp, w1) => (get_players_ids_loop resp.players names [], w1)

/-- The fixed URL `add_match` posts to. -/
def add_match_url : String :=
  "http://www.startuppong.com/api/v1/add_match"

/-- The form-urlencoded body built by `add_match` in lib.rs. -/
def add_match_data (a : Account) (winner_id loser_id : Nat) : String :=
  "api_account_id=" ++ a.id ++ "&api_access_key=" ++ a.key ++
    "&winner_id=" ++ toString winner_id ++ "&loser_id=" ++ toString loser_id

/-- `add_match` from lib.rs: issue one POST (logged in the world); a transport
failure of `send()` is wrapped as `ApiError::Http` by `try!`, and otherwise
the response is dropped unexamined and `Ok(())` is returned. -/
def add_match (a : Account) (winner_id loser_id : Nat) (w : World) :
    Except ApiError Unit × World :=
  let data := add_match_data a winner_id loser_id
  let w1 := { w with postCalls := w.postCalls ++ [(add_match_url, data)] }
  match w.http_post add_match_url data with
  | Except.error e => (Except.error (ApiError.Http e), w1)
  | Except.ok _res => (Except.ok (), w1)

/-- `add_match_with_names` from lib.rs: resolve `vec![winner, loser]` through
`get_players_ids`, then `add_match(account, ids[0], ids[1])`; any resolution
error is returned by `try!` without issuing the POST. -/
def add_match_with_names (a : Account) (winner loser : String) (w : World) :
    Except ApiError Unit × World :=
  match get_players_ids a [winner, loser] w with
  | (Except.error e, w1) => (Except.error e, w1)
  | (Except.ok ids, w1) => add_match a (ids.get! 0) (ids.get! 1) w1

/-- Spec-side first-match: the id of the first player, in the list's returned
order, whose name contains the fragment as a case-sensitive substring. -/
def first_match_id (players : List Player) (fragment : String) : Option Nat :=
  (players.find? (fun p => str_contains p.name fragment)).map Player.id

/-- Spec-side resolution: the ordered sequence of first-match ids, one per
fragment in fragment order, defined iff every fragment has a match. -/
def resolve_all (players : List Player) : List String → Option (List Nat)
  | [] => some []
  | n :: rest =>
    match first_match_id players n with
    | some i => (resolve_all players rest).map (fun r => i :: r)
    | none => none

/-- A concrete player (the leaderboard fixture of the repository's tests). -/
def sample_player1 : Player :=
  { id := 89, rating := 561.8, rank := 1, name := "Eshaan Bhalla" }

/-- A concrete player (the leaderboard fixture of the repository's tests). -/
def sample_player2 : Player :=
  { id := 55, rating := 635.4, rank := 2, name := "Collin Green" }

/-- A concrete player (the leaderboard fixture of the repository's tests). -/
def sample_player3 : Player :=
  { id := 60, rating := 484.8, rank := 3, name := "Joe Wilm" }

/-- A concrete three-player leaderboard. -/
def sample_players : List Player :=
  [sample_player1, sample_player2, sample_player3]

/-- A concrete credential pair. -/
def sample_account : Account :=
  Account.new "account-id" "access-key"

/-- A concrete world whose GET transport succeeds and decodes to
`sample_players`, and whose POST responder succeeds. -/
def sample_world : World :=
  { fetchCount := 0
    http_get := fun _ _ =>
      { send := Except.ok { status := 200, body := "players-json" }
        read_to_string := fun r => Except.ok r.body }
    decode_players := fun _ => Except.ok { players := sample_players }
    postCalls := []
    http_post := fun _ _ => Except.ok { status := 200, body := "" } }

/-- A concrete GET transport whose `send()` fails. -/
def failing_transport : GetTransport :=
  { send := Except.error { message := "connection refused" }
    read_to_string := fun r => Except.ok r.body }

/-- A concrete decode oracle that always fails. -/
def sample_decode_fail : String → Except DecoderError Nat :=
  fun _ => Except.error { message := "bad json" }

/-- A concrete environment in which every variable is absent. -/
def sample_env_missing : String → Except VarError String :=
  fun _ => Except.error VarError.NotPresent

/-- The inner loop of `get_players_ids` computes the declarative
first-match. -/
theorem find_player_id_eq (players : List Player) (name : String) :
    find_player_id players name = first_match_id players name := by
  induction players with
  | nil => rfl
  | cons p ps ih =>
    unfold find_player_id first_match_id
    rw [List.find?_cons]
    cases h : str_contains p.name name with
    | true => simp
    | false => simpa [first_match_id] using ih

/-- The outer loop succeeds exactly when every fragment resolves, returning
the accumulator followed by the resolved ids in fragment order. -/
theorem loop_ok_iff (players : List Player) (names : List String) :
    ∀ (acc ids : List Nat),
      get_players_ids_loop players names acc = Except.ok ids ↔
        ∃ r, resolve_all players names = some r ∧ ids = acc ++ r := by
  induction names with
  | nil =>
    intro acc ids
    simp [get_players_ids_loop, resolve_all, eq_comm]
  | cons n rest ih =>
    intro acc ids
    rw [get_players_ids_loop, find_player_id_eq]
    cases h : first_match_id players n with
    | none => simp [resolve_all, h]
    | some i =>
      rw [ih]
      simp only [resolve_all, h, Option.map_eq_some']
      constructor
      · rintro ⟨r, hr, hids⟩
        exact ⟨i :: r, ⟨r, hr, rfl⟩, by simp [hids]⟩
      · rintro ⟨r', ⟨r, hr, hrr⟩, hids⟩
        exact ⟨r, hr, by simp [hids, ← hrr]⟩

/-- The outer loop fails with `PlayerNotFound frag` exactly when `frag` is the
first fragment, in input order, with no matching player. -/
theorem loop_error_iff (players : List Player) (names : List String) :
    ∀ (acc : List Nat) (frag : String),
      get_players_ids_loop players names acc =
          Except.error (ApiError.PlayerNotFound frag) ↔
        ∃ pre post, names = pre ++ frag :: post ∧
          (∀ n ∈ pre, (first_match_id players n).isSome = true) ∧
          first_match_id players frag = none := by
  induction names with
  | nil =>
    intro acc frag
    simp [get_players_ids_loop]
  | cons n rest ih =>
    intro acc frag
    rw [get_players_ids_loop, find_player_id_eq]
    cases h : first_match_id players n with
    | none =>
      constructor
      · intro he
        have hfn : frag = n := by
          have := Except.error.inj he
          exact (ApiError.PlayerNotFound.inj this).symm
        exact ⟨[], rest, by simp [hfn], by simp, hfn ▸ h⟩
      · rintro ⟨pre, post, hdec, hpre, hfrag⟩
        cases pre with
        | nil =>
          simp at hdec
          rw [hdec.1]
        | cons q pre' =>
          have hq : q = n := (List.cons.inj hdec).1.symm
          have hs : (first_match_id players n).isSome = true := by
            rw [← hq]; exact hpre q (by simp)
          rw [h] at hs
          simp at hs
    | some i =>
      rw [ih]
      constructor
      · rintro ⟨pre, post, hdec, hpre, hfrag⟩
        refine ⟨n :: pre, post, by rw [List.cons_append, hdec], ?_, hfrag⟩
        intro m hm
        rcases List.mem_cons.mp hm with hm | hm
        · rw [hm, h]; rfl
        · exact hpre m hm
      · rintro ⟨pre, post, hdec, hpre, hfrag⟩
        cases pre with
        | nil =>
          simp at hdec
          rw [hdec.1] at h
          rw [h] at hfrag
          cases hfrag
        | cons q pre' =>
          have hinj := List.cons.inj hdec
          refine ⟨pre', post, hinj.2, ?_, hfrag⟩
          intro m hm
          exact hpre m (by simp [hm])

/-- A successful resolution has one id per fragment and, position by
position, each id is the first match of the corresponding fragment. -/
theorem resolve_all_pointwise (players : List Player) :
    ∀ (names : List String) (ids : List Nat),
      resolve_all players names = some ids →
        ids.length = names.length ∧
        ∀ k, k < names.length →
          first_match_id players (names.getD k "") = some (ids.getD k 0) := by
  intro names
  induction names with
  | nil =>
    intro ids h
    simp [resolve_all] at h
    simp [← h]
  | cons n rest ih =>
    intro ids h
    rw [resolve_all] at h
    cases hn : first_match_id players n with
    | none => rw [hn] at h; cases h
    | some i =>
      rw [hn, Option.map_eq_some'] at h
      obtain ⟨r, hr, hri⟩ := h
      obtain ⟨hlen, hpt⟩ := ih r hr
      constructor
      · rw [← hri]; simp [hlen]
      · intro k hk
        cases k with
        | zero => simpa [← hri] using hn
        | succ k' =>
          have hk' : k' < rest.length := by simpa using hk
          simpa [← hri] using hpt k' hk'

/-- `get_players` is its result paired with the world after exactly one more
GET. -/
theorem get_players_pair (a : Account) (w : World) :
    get_players a w =
      ((get_players a w).1, { w with fetchCount := w.fetchCount + 1 }) := rfl

/-- `get_players_ids` changes the world by exactly one GET, whatever the
fragments and the fetch outcome. -/
theorem gpi_world (a : Account) (names : List String) (w : World) :
    (get_players_ids a names w).2 =
      { w with fetchCount := w.fetchCount + 1 } := by
  rw [get_players_ids, get_players_pair]
  cases (get_players a w).1 with
  | error e => rfl
  | ok resp => rfl

/-- When the single fetch decodes to `players`, `get_players_ids` is the
matching loop over `players` started with an empty accumulator. -/
theorem gpi_ok_eq (a : Account) (names : List String) (w : World)
    (players : List Player)
    (h : (get_players a w).1 = Except.ok { players := players }) :
    get_players_ids a names w =
      (get_players_ids_loop players names [],
       { w with fetchCount := w.fetchCount + 1 }) := by
  rw [get_players_ids, get_players_pair, h]

/-- When the single fetch fails, `get_players_ids` returns that error
unchanged. -/
theorem gpi_err_eq (a : Account) (names : List String) (w : World)
    (e : ApiError) (h : (get_players a w).1 = Except.error e) :
    get_players_ids a names w =
      (Except.error e, { w with fetchCount := w.fetchCount + 1 }) := by
  rw [get_players_ids, get_players_pair, h]

/-- `add_match` logs exactly one POST of the add-match URL and body, whatever
the transport outcome. -/
theorem add_match_world (a : Account) (wi li : Nat) (w : World) :
    (add_match a wi li w).2 =
      { w with postCalls :=
          w.postCalls ++ [(add_match_url, add_match_data a wi li)] } := by
  rw [add_match]
  cases w.http_post add_match_url (add_match_data a wi li) with
  | error e => rfl
  | ok resp => rfl

/-- `add_match` returns `Ok(())` whenever the transport returns any
response. -/
theorem add_match_ok (a : Account) (wi li : Nat) (w : World)
    (resp : HttpResponse)
    (h : w.http_post add_match_url (add_match_data a wi li) = Except.ok resp) :
    (add_match a wi li w).1 = Except.ok () := by
  rw [add_match]
  simp only [h]

/-- `add_match` returns `ApiError::Http` exactly on a transport failure. -/
theorem add_match_err (a : Account) (wi li : Nat) (w : World) (e : HyperError)
    (h : w.http_post add_match_url (add_match_data a wi li) =
      Except.error e) :
    (add_match a wi li w).1 = Except.error (ApiError.Http e) := by
  rw [add_match]
  simp only [h]

/-- `get_players_ids` as an explicit pair. -/
theorem gpi_pair (a : Account) (names : List String) (w : World) :
    get_players_ids a names w =
      ((get_players_ids a names w).1,
       { w with fetchCount := w.fetchCount + 1 }) := by
  rw [← gpi_world a names w]

/-- A resolution failure makes `add_match_with_names` return that error with
no POST issued. -/
theorem amwn_err (a : Account) (winner loser : String) (w : World)
    (e : ApiError)
    (h : (get_players_ids a [winner, loser] w).1 = Except.error e) :
    add_match_with_names a winner loser w =
      (Except.error e, (get_players_ids a [winner, loser] w).2) := by
  rw [add_match_with_names, gpi_pair, h, ← gpi_world a [winner, loser] w]

/-- A successful resolution makes `add_match_with_names` call `add_match`
with the two resolved ids in order. -/
theorem amwn_ok (a : Account) (winner loser : String) (w : World)
    (i0 i1 : Nat)
    (h : (get_players_ids a [winner, loser] w).1 = Except.ok [i0, i1]) :
    add_match_with_names a winner loser w =
      add_match a i0 i1 (get_players_ids a [winner, loser] w).2 := by
  rw [add_match_with_names, gpi_pair, h, ← gpi_world a [winner, loser] w]
  rfl

/-- A successful resolution of a two-fragment list yields the two first-match
ids in order. -/
theorem resolve_pair (players : List Player) (x y : String) (r : List Nat)
    (h : resolve_all players [x, y] = some r) :
    ∃ i j, first_match_id players x = some i ∧
      first_match_id players y = some j ∧ r = [i, j] := by
  rw [resolve_all] at h
  cases hx : first_match_id players x with
  | none => rw [hx] at h; cases h
  | some i =>
    rw [hx] at h
    rw [resolve_all] at h
    cases hy : first_match_id players y with
    | none => rw [hy] at h; cases h
    | some j =>
      rw [hy] at h
      simp [resolve_all] at h
      exact ⟨i, j, rfl, rfl, h.symm⟩

/-- A successful resolution of a two-fragment list is a two-element id
list. -/
theorem gpi_ok_shape (a : Account) (x y : String) (w : World) (ids : List Nat)
    (h : (get_players_ids a [x, y] w).1 = Except.ok ids) :
    ∃ i0 i1, ids = [i0, i1] := by
  rw [get_players_ids, get_players_pair] at h
  cases hf : (get_players a w).1 with
  | error e => rw [hf] at h; cases h
  | ok resp =>
    rw [hf] at h
    simp only at h
    rw [loop_ok_iff] at h
    obtain ⟨r, hr, hids⟩ := h
    obtain ⟨i, j, _, _, hrij⟩ := resolve_pair resp.players x y r hr
    exact ⟨i, j, by simp [hids, hrij]⟩

/-- C1: for every credential pair and every player list returned by the
single fetch, `get_players_ids` succeeds exactly when every fragment, taken
in input order, has a first player (in the list's returned order) whose name
contains it as a case-sensitive substring, and then returns exactly the
ordered sequence of those first-match ids, one per fragment in fragment
order; a fragment matching several players silently takes the first. -/
theorem get_players_ids_first_match_order (a : Account) (w : World)
    (names : List String) (players : List Player) (ids : List Nat)
    (h : (get_players a w).1 = Except.ok { players := players }) :
    ((get_players_ids a names w).1 = Except.ok ids ↔
      resolve_all players names = some ids) ∧
    ((get_players_ids a names w).1 = Except.ok ids →
      ids.length = names.length ∧
      ∀ k, k < names.length →
        first_match_id players (names.getD k "") = some (ids.getD k 0)) := by
  have hg := gpi_ok_eq a names w players h
  have hiff : (get_players_ids a names w).1 = Except.ok ids ↔
      resolve_all players names = some ids := by
    rw [hg]
    simp only
    rw [loop_ok_iff]
    constructor
    · rintro ⟨r, hr, hids⟩
      rw [hids]
      simpa using hr
    · intro hr
      exact ⟨ids, hr, by simp⟩
  refine ⟨hiff, ?_⟩
  intro hok
  exact resolve_all_pointwise players names ids (hiff.mp hok)

/-- Witness for C1 on a concrete leaderboard and fragment list. -/
theorem get_players_ids_first_match_order_witness :
    (get_players sample_account sample_world).1 =
      Except.ok { players := sample_players } ∧
    (get_players_ids sample_account ["Joe", "Green"] sample_world).1 =
      Except.ok [60, 55] :=
  ⟨rfl,
   (get_players_ids_first_match_order sample_account sample_world
      ["Joe", "Green"] sample_players [60, 55] rfl).1.mpr rfl⟩

/-- C2: for every fragment list, `get_players_ids` returns a `PlayerNotFound`
error carrying `frag` exactly when `frag` is the first unmatched fragment in
input order (all earlier fragments match, later ones are irrelevant); in that
case no id sequence is returned. -/
theorem get_players_ids_first_unmatched_error (a : Account) (w : World)
    (names : List String) (players : List Player) (frag : String)
    (h : (get_players a w).1 = Except.ok { players := players }) :
    (get_players_ids a names w).1 =
        Except.error (ApiError.PlayerNotFound frag) ↔
      ∃ pre post, names = pre ++ frag :: post ∧
        (∀ n ∈ pre, (first_match_id players n).isSome = true) ∧
        first_match_id players frag = none := by
  rw [gpi_ok_eq a names w players h]
  simp only
  exact loop_error_iff players names [] frag

/-- Witness for C2: the fragment Zzzz matches nobody, so resolution fails
with PlayerNotFound Zzzz although the later fragment would match. -/
theorem get_players_ids_first_unmatched_error_witness :
    (get_players sample_account sample_world).1 =
      Except.ok { players := sample_players } ∧
    (get_players_ids sample_account ["Zzzz", "Joe"] sample_world).1 =
      Except.error (ApiError.PlayerNotFound "Zzzz") :=
  ⟨rfl,
   (get_players_ids_first_unmatched_error sample_account sample_world
      ["Zzzz", "Joe"] sample_players "Zzzz" rfl).mpr
     ⟨[], ["Joe"], rfl, by simp, rfl⟩⟩

/-- C3: `add_match_with_names` resolves exactly the two-element sequence
[winner, loser] through one invocation of the resolution routine (one GET),
and on success issues exactly one add-match POST with the first resolved id
as winner and the second as loser, returning `add_match`'s outcome unchanged;
a resolution error is returned unchanged and no POST is issued. -/
theorem add_match_with_names_composition (a : Account) (winner loser : String)
    (w : World) :
    ((add_match_with_names a winner loser w).2.fetchCount =
      w.fetchCount + 1) ∧
    (∀ e, (get_players_ids a [winner, loser] w).1 = Except.error e →
      add_match_with_names a winner loser w =
        (Except.error e, (get_players_ids a [winner, loser] w).2) ∧
      (add_match_with_names a winner loser w).2.postCalls = w.postCalls) ∧
    (∀ ids, (get_players_ids a [winner, loser] w).1 = Except.ok ids →
      ∃ i0 i1, ids = [i0, i1]) ∧
    (∀ i0 i1, (get_players_ids a [winner, loser] w).1 = Except.ok [i0, i1] →
      add_match_with_names a winner loser w =
        add_match a i0 i1 (get_players_ids a [winner, loser] w).2 ∧
      (add_match_with_names a winner loser w).2.postCalls =
        w.postCalls ++ [(add_match_url, add_match_data a i0 i1)]) := by
  refine ⟨?_, ?_, ?_, ?_⟩
  · cases hg : (get_players_ids a [winner, loser] w).1 with
    | error e =>
      rw [amwn_err a winner loser w e hg, gpi_world]
    | ok ids =>
      obtain ⟨i0, i1, rfl⟩ := gpi_ok_shape a winner loser w ids hg
      rw [amwn_ok a winner loser w i0 i1 hg, add_match_world, gpi_world]
  · intro e hg
    refine ⟨amwn_err a winner loser w e hg, ?_⟩
    rw [amwn_err a winner loser w e hg, gpi_world]
  · intro ids hg
    exact gpi_ok_shape a winner loser w ids hg
  · intro i0 i1 hg
    refine ⟨amwn_ok a winner loser w i0 i1 hg, ?_⟩
    rw [amwn_ok a winner loser w i0 i1 hg, add_match_world, gpi_world]

/-- Witness for C3 on a concrete world where both fragments resolve. -/
theorem add_match_with_names_composition_witness :
    (add_match_with_names sample_account "Joe" "Green"
        sample_world).2.fetchCount = sample_world.fetchCount + 1 ∧
    add_match_with_names sample_account "Joe" "Green" sample_world =
      add_match sample_account 60 55
        (get_players_ids sample_account ["Joe", "Green"] sample_world).2 ∧
    (add_match_with_names sample_account "Joe" "Green"
        sample_world).2.postCalls =
      sample_world.postCalls ++
        [(add_match_url, add_match_data sample_account 60 55)] :=
  ⟨(add_match_with_names_composition sample_account "Joe" "Green"
      sample_world).1,
   ((add_match_with_names_composition sample_account "Joe" "Green"
       sample_world).2.2.2 60 55 rfl).1,
   ((add_match_with_names_composition sample_account "Joe" "Green"
       sample_world).2.2.2 60 55 rfl).2⟩

/-- C4: `add_match` succeeds exactly when the POST completes without a
transport failure; the response status and body are never inspected, so every
response whatsoever yields `Ok(())`, and a transport failure yields the
`Http` error. -/
theorem add_match_transport_only (a : Account) (wi li : Nat) (w : World) :
    ((add_match a wi li w).1 = Except.ok () ↔
      ∃ resp, w.http_post add_match_url (add_match_data a wi li) =
        Except.ok resp) ∧
    (∀ resp, w.http_post add_match_url (add_match_data a wi li) =
        Except.ok resp →
      add_match a wi li w = (Except.ok (),
        { w with postCalls :=
            w.postCalls ++ [(add_match_url, add_match_data a wi li)] })) ∧
    (∀ e, w.http_post add_match_url (add_match_data a wi li) =
        Except.error e →
      add_match a wi li w = (Except.error (ApiError.Http e),
        { w with postCalls :=
            w.postCalls ++ [(add_match_url, add_match_data a wi li)] })) := by
  refine ⟨?_, ?_, ?_⟩
  · constructor
    · intro h
      cases hp : w.http_post add_match_url (add_match_data a wi li) with
      | error e =>
        rw [add_match_err a wi li w e hp] at h
        cases h
      | ok resp => exact ⟨resp, rfl⟩
    · rintro ⟨resp, hp⟩
      exact add_match_ok a wi li w resp hp
  · intro resp hp
    have h1 := add_match_ok a wi li w resp hp
    have h2 := add_match_world a wi li w
    calc add_match a wi li w
        = ((add_match a wi li w).1, (add_match a wi li w).2) := rfl
      _ = _ := by rw [h1, h2]
  · intro e hp
    have h1 := add_match_err a wi li w e hp
    have h2 := add_match_world a wi li w
    calc add_match a wi li w
        = ((add_match a wi li w).1, (add_match a wi li w).2) := rfl
      _ = _ := by rw [h1, h2]

/-- Witness for C4 on a concrete world whose POST responder returns a
response. -/
theorem add_match_transport_only_witness :
    sample_world.http_post add_match_url
        (add_match_data sample_account 60 55) =
      Except.ok { status := 200, body := "" } ∧
    add_match sample_account 60 55 sample_world =
      (Except.ok (), { sample_world with postCalls :=
        sample_world.postCalls ++
          [(add_match_url, add_match_data sample_account 60 55)] }) :=
  ⟨rfl,
   (add_match_transport_only sample_account 60 55 sample_world).2.1
     { status := 200, body := "" } rfl⟩

/-- C5 counterexample: with both variables absent (and with the second one
not valid text), `Account::from_env` returns the raw `std::env::VarError`
unchanged; its result type is `Result<Account, VarError>`, so the failure is
not wrapped into the unified `ApiError` type, contrary to the claim. -/
theorem from_env_not_wrapped_counterexample :
    Account.from_env (fun _ => Except.error VarError.NotPresent) =
      Except.error VarError.NotPresent ∧
    Account.from_env (fun v =>
        if v = "STARTUPPONG_ACCOUNT_ID" then Except.ok "account-id"
        else Except.error (VarError.NotUnicode [255])) =
      Except.error (VarError.NotUnicode [255]) := by
  constructor
  · rfl
  · rfl

/-- C5 as amended: when either environment variable is absent or not valid
text, the environment-based constructor fails and returns the
`std::env::VarError` of the first failing lookup directly (not wrapped into
the unified `ApiError` type); with both lookups succeeding it returns the
account built from the two values. -/
theorem from_env_returns_var_error (env : String → Except VarError String)
    (e : VarError) (id key : String) :
    (env "STARTUPPONG_ACCOUNT_ID" = Except.error e →
      Account.from_env env = Except.error e) ∧
    (env "STARTUPPONG_ACCOUNT_ID" = Except.ok id →
      env "STARTUPPONG_ACCESS_KEY" = Except.error e →
      Account.from_env env = Except.error e) ∧
    (env "STARTUPPONG_ACCOUNT_ID" = Except.ok id →
      env "STARTUPPONG_ACCESS_KEY" = Except.ok key →
      Account.from_env env = Except.ok (Account.new id key)) := by
  refine ⟨?_, ?_, ?_⟩
  · intro h
    unfold Account.from_env
    rw [h]
  · intro h1 h2
    unfold Account.from_env
    rw [h1]
    simp only
    rw [h2]
  · intro h1 h2
    unfold Account.from_env
    rw [h1]
    simp only
    rw [h2]

/-- Witness for the amended C5 on a concrete empty environment. -/
theorem from_env_returns_var_error_witness :
    sample_env_missing "STARTUPPONG_ACCOUNT_ID" =
      Except.error VarError.NotPresent ∧
    Account.from_env sample_env_missing =
      Except.error VarError.NotPresent :=
  ⟨rfl,
   (from_env_returns_var_error sample_env_missing VarError.NotPresent
      "" "").1 rfl⟩

/-- C6: `get_players_ids` issues exactly one GET per invocation, whatever the
number of fragments, and when the fetch succeeds every fragment is matched
against that single fetched list. -/
theorem get_players_ids_single_fetch (a : Account) (names : List String)
    (w : World) :
    (get_players_ids a names w).2 =
        { w with fetchCount := w.fetchCount + 1 } ∧
    ∀ players, (get_players a w).1 = Except.ok { players := players } →
      (get_players_ids a names w).1 =
        get_players_ids_loop players names [] := by
  refine ⟨gpi_world a names w, ?_⟩
  intro players h
  rw [gpi_ok_eq a names w players h]

/-- Witness for C6 on a concrete world and fragment list. -/
theorem get_players_ids_single_fetch_witness :
    (get_players_ids sample_account ["Joe"] sample_world).2 =
      { sample_world with fetchCount := sample_world.fetchCount + 1 } ∧
    (get_players_ids sample_account ["Joe"] sample_world).1 =
      get_players_ids_loop sample_players ["Joe"] [] :=
  ⟨(get_players_ids_single_fetch sample_account ["Joe"] sample_world).1,
   (get_players_ids_single_fetch sample_account ["Joe"] sample_world).2
     sample_players rfl⟩

/-- C7: the helper `get` maps its three failure modes to three pairwise
distinct kinds of the unified error type: send failure to `Http`, body-read
failure to `Io`, and JSON decode failure to `JsonDecoding`. -/
theorem get_failure_modes_distinct (T : Type)
    (decode : String → Except DecoderError T) (t : GetTransport) :
    (∀ e, t.send = Except.error e →
      get decode t = Except.error (ApiError.Http e)) ∧
    (∀ res e, t.send = Except.ok res →
      t.read_to_string res = Except.error e →
      get decode t = Except.error (ApiError.Io e)) ∧
    (∀ res body e, t.send = Except.ok res →
      t.read_to_string res = Except.ok body → decode body = Except.error e →
      get decode t = Except.error (ApiError.JsonDecoding e)) ∧
    (∀ e1 e2, ApiError.Http e1 ≠ ApiError.Io e2) ∧
    (∀ e1 e2, ApiError.Http e1 ≠ ApiError.JsonDecoding e2) ∧
    (∀ e1 e2, ApiError.Io e1 ≠ ApiError.JsonDecoding e2) := by
  refine ⟨?_, ?_, ?_, ?_, ?_, ?_⟩
  · intro e h
    unfold get
    rw [h]
  · intro res e h1 h2
    unfold get
    rw [h1]
    simp only
    rw [h2]
  · intro res body e h1 h2 h3
    unfold get
    rw [h1]
    simp only
    rw [h2]
    simp only
    rw [h3]
  · intro e1 e2 h
    cases h
  · intro e1 e2 h
    cases h
  · intro e1 e2 h
    cases h

/-- Witness for C7 on a concrete transport whose send fails. -/
theorem get_failure_modes_distinct_witness :
    failing_transport.send =
      Except.error { message := "connection refused" } ∧
    get sample_decode_fail failing_transport =
      Except.error (ApiError.Http { message := "connection refused" }) ∧
    ApiError.Http { message := "x" } ≠ ApiError.Io { message := "x" } :=
  ⟨rfl,
   (get_failure_modes_distinct Nat sample_decode_fail failing_transport).1
     { message := "connection refused" } rfl,
   (get_failure_modes_distinct Nat sample_decode_fail
      failing_transport).2.2.2.1 { message := "x" } { message := "x" }⟩

/-- C8: the account built by `Account::new(id, key)` answers `id` and `key`
through its read-only accessors; the embedding is pure in `Account`, no
operation takes a mutable account or returns a modified one, so the stored
credentials cannot change after construction. -/
theorem account_new_getters (id key : String) :
    (Account.new id key).id = id ∧ (Account.new id key).key = key :=
  ⟨rfl, rfl⟩

/-- Witness for C8 on concrete credential strings. -/
theorem account_new_getters_witness :
    (Account.new "account-id" "access-key").id = "account-id" ∧
    (Account.new "account-id" "access-key").key = "access-key" :=
  account_new_getters "account-id" "access-key"

/-- C9: the empty fragment matches every player name, so on a non-empty
player list it resolves to the first player's id and the resolution loop
records that id and moves on; only on an empty player list does it fail, with
`PlayerNotFound ""`. -/
theorem empty_fragment_matches_first_player (p : Player) (ps : List Player)
    (rest : List String) (acc : List Nat) :
    first_match_id (p :: ps) "" = some p.id ∧
    get_players_ids_loop (p :: ps) ("" :: rest) acc =
      get_players_ids_loop (p :: ps) rest (acc ++ [p.id]) ∧
    get_players_ids_loop [] ("" :: rest) acc =
      Except.error (ApiError.PlayerNotFound "") := by
  have hc : str_contains p.name "" = true := by
    simp [str_contains]
  refine ⟨?_, ?_, ?_⟩
  · simp [first_match_id, List.find?_cons, hc]
  · rw [get_players_ids_loop]
    simp [find_player_id, hc]
  · rfl

/-- Witness for C9 on the concrete leaderboard. -/
theorem empty_fragment_matches_first_player_witness :
    first_match_id sample_players "" = some 89 ∧
    get_players_ids_loop [] ["", "Joe"] [] =
      Except.error (ApiError.PlayerNotFound "") :=
  ⟨(empty_fragment_matches_first_player sample_player1
      [sample_player2, sample_player3] ["Joe"] []).1,
   (empty_fragment_matches_first_player sample_player1
      [sample_player2, sample_player3] ["Joe"] []).2.2⟩

/-- C10: when both fragments first-match the same player id, resolution
succeeds with [i, i], exactly one add-match POST is issued with winner id
equal to loser id, and the library itself reports no error (the call returns
`Ok(())` whenever the POST transport returns any response). -/
theorem add_match_with_names_same_id (a : Account) (w : World)
    (winner loser : String) (players : List Player) (i : Nat)
    (hf : (get_players a w).1 = Except.ok { players := players })
    (hw : first_match_id players winner = some i)
    (hl : first_match_id players loser = some i) :
    ((get_players_ids a [winner, loser] w).1 = Except.ok [i, i]) ∧
    (add_match_with_names a winner loser w =
      add_match a i i (get_players_ids a [winner, loser] w).2) ∧
    ((add_match_with_names a winner loser w).2.postCalls =
      w.postCalls ++ [(add_match_url, add_match_data a i i)]) ∧
    (∀ resp, w.http_post add_match_url (add_match_data a i i) =
        Except.ok resp →
      (add_match_with_names a winner loser w).1 = Except.ok ()) := by
  have hok : (get_players_ids a [winner, loser] w).1 =
      Except.ok [i, i] := by
    rw [gpi_ok_eq a [winner, loser] w players hf]
    simp only
    rw [loop_ok_iff]
    exact ⟨[i, i], by simp [resolve_all, hw, hl], rfl⟩
  have hmain := amwn_ok a winner loser w i i hok
  refine ⟨hok, hmain, ?_, ?_⟩
  · rw [hmain, add_match_world, gpi_world]
  · intro resp hp
    rw [hmain]
    rw [gpi_world a [winner, loser] w]
    exact add_match_ok a i i { w with fetchCount := w.fetchCount + 1 } resp hp

/-- Witness for C10: the fragments Joe and Wilm both first-match Joe Wilm. -/
theorem add_match_with_names_same_id_witness :
    first_match_id sample_players "Joe" = some 60 ∧
    first_match_id sample_players "Wilm" = some 60 ∧
    (get_players_ids sample_account ["Joe", "Wilm"] sample_world).1 =
      Except.ok [60, 60] ∧
    (add_match_with_names sample_account "Joe" "Wilm"
        sample_world).2.postCalls =
      sample_world.postCalls ++
        [(add_match_url, add_match_data sample_account 60 60)] :=
  ⟨rfl, rfl,
   (add_match_with_names_same_id sample_account sample_world "Joe" "Wilm"
      sample_players 60 rfl rfl rfl).1,
   (add_match_with_names_same_id sample_account sample_world "Joe" "Wilm"
      sample_players 60 rfl rfl rfl).2.2.1⟩

end Startuppong
